import Mathlib

/-!
Shallow embedding of the diqwest crate (HTTP Digest Authentication retry
wrapper around reqwest). The negotiation logic lives in src/lib.rs (async),
src/blocking.rs (blocking) and src/common.rs (shared resolver); src/error.rs
and src/core.rs hold historical variants. The external collaborators
(reqwest request/response types, the transport, and the digest_auth
computation library) are modelled as explicit data and function parameters.
-/

deriving instance DecidableEq for Except

namespace Diqwest

/-- A URL as held by the url crate: scheme, host, optional port, path,
optional query, optional fragment. -/
structure Url where
  scheme : String
  host : String
  port : Option Nat
  path : String
  query : Option String
  fragment : Option String
deriving DecidableEq, Repr

/-- The slice url[Position.AfterPort..] used by calculate_answer in
src/common.rs line 68: everything after the port, i.e. path, then the query
introduced by a question mark, then the fragment introduced by a hash sign. -/
def Url.afterPort (u : Url) : String :=
  u.path
    ++ (match u.query with | some q => "?" ++ q | none => "")
    ++ (match u.fragment with | some f => "#" ++ f | none => "")

/-- The path-and-query of a URL as the spec words it (section 4.2): the
request path together with the query, with scheme, host and port stripped.
This is the spec-side definition used to compare against the source-side
Url.afterPort. -/
def Url.pathAndQuery (u : Url) : String :=
  u.path ++ (match u.query with | some q => "?" ++ q | none => "")

/-- A reqwest request body: either backed by in-memory bytes or by a
single-consumption stream. -/
inductive Body where
  | stream : Body
  | bytes : List Nat → Body
deriving DecidableEq, Repr

/-- Body.as_bytes from reqwest: the bytes when in memory, none for a
stream body. -/
def Body.as_bytes : Body → Option (List Nat)
  | Body.stream => none
  | Body.bytes l => some l

/-- A header value is an uninterpreted byte sequence (http crate
HeaderValue). -/
abbrev HeaderValue := List Nat

/-- HeaderValue.to_str of the http crate: succeeds iff every byte is
visible ASCII (32 to 126) or horizontal tab. -/
def hvToStr (v : HeaderValue) : Option String :=
  if v.all (fun b => (32 ≤ b && b < 127) || b == 9) then
    some (String.mk (v.map Char.ofNat))
  else none

/-- A header map: name value pairs; lookup by name is case-insensitive as
in the http crate. -/
structure HeaderMap where
  entries : List (String × HeaderValue)
deriving DecidableEq, Repr

/-- ASCII lowercase of a character (header names are ASCII). -/
def lowerChar (c : Char) : Char :=
  if 65 ≤ c.toNat ∧ c.toNat ≤ 90 then Char.ofNat (c.toNat + 32) else c

/-- ASCII lowercase of a string. -/
def lowerStr (s : String) : String := String.mk (s.data.map lowerChar)

/-- Case-insensitive header lookup (HeaderMap.get). -/
def HeaderMap.get (m : HeaderMap) (name : String) : Option HeaderValue :=
  (m.entries.find? (fun e => lowerStr e.fst == lowerStr name)).map
    (fun e => e.snd)

/-- A response as the core reads it: status code and headers. -/
structure Response where
  status : Nat
  headers : HeaderMap
deriving DecidableEq, Repr

/-- A pending reqwest RequestBuilder: method, url, optional body, and the
headers set so far. -/
structure RequestBuilder where
  method : String
  url : Url
  body : Option Body
  headers : List (String × String)
deriving DecidableEq, Repr

/-- RequestBuilder.try_clone of reqwest: returns none exactly when the body
is a stream, otherwise a copy of the builder. -/
def RequestBuilder.tryClone (rb : RequestBuilder) : Option RequestBuilder :=
  match rb.body with
  | some Body.stream => none
  | _ => some rb

/-- RequestBuilder.header: returns a new builder with the given header
appended. -/
def RequestBuilder.header (rb : RequestBuilder) (name value : String) :
    RequestBuilder :=
  { rb with headers := rb.headers ++ [(name, value)] }

/-- A built reqwest Request, exposing method, url and body (the
WithRequest capability of src/common.rs). -/
structure Request where
  method : String
  url : Url
  body : Option Body
  headers : List (String × String)
deriving DecidableEq, Repr

/-- RequestBuilder.build: in this model every builder holds a well-formed
request, so building always succeeds (the source wraps the reqwest error
into Error.ReqwestError when it does not). -/
def RequestBuilder.build (rb : RequestBuilder) : Except Unit Request :=
  Except.ok ⟨rb.method, rb.url, rb.body, rb.headers⟩

/-- An error of the digest_auth library (its content is irrelevant to the
crate logic). -/
inductive DigestErr where
  | invalidChallenge : String → DigestErr
deriving DecidableEq, Repr

/-- The crate error enum as used by src/common.rs (the variants named
there: AuthHeaderMissing and RequestBuilderNotCloneable, plus the wrapped
library errors). src/error.rs in the sources is a historical variant
without AuthHeaderMissing; the enum carrying it is modelled here from the
spec error taxonomy in section 7, keeping the names src/common.rs uses. -/
inductive Error where
  | ReqwestError : Error
  | DigestAuthError : DigestErr → Error
  | ToStrError : Error
  | AuthHeaderMissing : Error
  | RequestBuilderNotCloneable : Error
deriving DecidableEq, Repr

/-- The AuthContext of the digest_auth library, as constructed by
AuthContext.new_with_method(username, password, path, body, method). -/
structure AuthContext where
  username : String
  password : String
  uri : String
  body : Option (List Nat)
  method : String
deriving DecidableEq, Repr

/-- The digest_auth library surface the crate consumes: challenge parsing,
response computation, and header formatting. The library is external to
the repository, so it is a parameter of the embedded functions; P is its
parsed-challenge type and A its authorization-header type. -/
structure DigestAuth (P A : Type) where
  parse : String → Except DigestErr P
  respond : P → AuthContext → Except DigestErr A
  toHeaderString : A → String

/-- clone_request_builder from src/common.rs lines 37 to 39: try_clone,
mapping a failed clone to RequestBuilderNotCloneable. -/
def clone_request_builder (rb : RequestBuilder) : Except Error RequestBuilder :=
  match rb.tryClone with
  | some r => Except.ok r
  | none => Except.error Error.RequestBuilderNotCloneable

/-- Modelled from the spec: the CloneRequestBuilder trait whose refresh
method src/lib.rs and src/blocking.rs call is imported from common but its
definition is absent from the sources; per the replicator contract of spec
section 4.3 it is the fallible duplicate, identical to
clone_request_builder. -/
def refresh (rb : RequestBuilder) : Except Error RequestBuilder :=
  clone_request_builder rb

/-- parse_digest_auth_header from src/common.rs lines 41 to 54: look up
www-authenticate (absent: AuthHeaderMissing), decode it as text (failure:
ToStrError), build the AuthContext, parse the challenge and respond
(library failures wrapped as DigestAuthError). -/
def parse_digest_auth_header {P A : Type} (lib : DigestAuth P A)
    (header : HeaderMap) (path : String) (method : String)
    (body : Option (List Nat)) (username password : String) :
    Except Error A :=
  match header.get "www-authenticate" with
  | none => Except.error Error.AuthHeaderMissing
  | some v =>
    match hvToStr v with
    | none => Except.error Error.ToStrError
    | some www_auth =>
      match lib.parse www_auth with
      | Except.error e => Except.error (Error.DigestAuthError e)
      | Except.ok prompt =>
        match lib.respond prompt ⟨username, password, path, body, method⟩ with
        | Except.error e => Except.error (Error.DigestAuthError e)
        | Except.ok a => Except.ok a

/-- calculate_answer from src/common.rs lines 56 to 73: clone and build the
request, take the path as url[Position.AfterPort..], the method, the body
bytes, and delegate to parse_digest_auth_header. -/
def calculate_answer {P A : Type} (lib : DigestAuth P A)
    (request_builder : RequestBuilder) (headers : HeaderMap)
    (username password : String) : Except Error A :=
  match clone_request_builder request_builder with
  | Except.error e => Except.error e
  | Except.ok rb =>
    match rb.build with
    | Except.error _ => Except.error Error.ReqwestError
    | Except.ok request =>
      let path := request.url.afterPort
      let method := request.method
      let body := request.body.bind Body.as_bytes
      parse_digest_auth_header lib headers path method body username password

/-- get_answer from src/common.rs lines 75 to 92: success becomes some,
AuthHeaderMissing becomes a successful none, every other error propagates. -/
def get_answer {P A : Type} (lib : DigestAuth P A)
    (request_builder : RequestBuilder) (first_response : HeaderMap)
    (username password : String) : Except Error (Option A) :=
  match calculate_answer lib request_builder first_response username password with
  | Except.ok answer => Except.ok (some answer)
  | Except.error Error.AuthHeaderMissing => Except.ok none
  | Except.error e => Except.error e

/-- The transport: the result of the n-th transmission of this negotiation
(a transport failure or a response). The negotiation never inspects the
error payload, only wraps it as ReqwestError. -/
abbrev Transport := Nat → Except Unit Response

/-- The observable outcome of one send_with_digest_auth call: the returned
result and the trace of requests actually handed to the transport, in
order. -/
structure SendOutcome where
  result : Except Error Response
  sent : List RequestBuilder
deriving Repr

/-- try_digest_auth from src/lib.rs lines 75 to 92: ask get_answer; on some
answer, refresh the builder, attach the Authorization header and transmit,
returning the second response; on none return the first response; errors
propagate. -/
def try_digest_auth {P A : Type} (lib : DigestAuth P A) (transport : Transport)
    (request_builder : RequestBuilder) (first_response : Response)
    (username password : String) : SendOutcome :=
  match get_answer lib request_builder first_response.headers username password with
  | Except.error e => ⟨Except.error e, []⟩
  | Except.ok (some answer) =>
    match refresh request_builder with
    | Except.error e => ⟨Except.error e, []⟩
    | Except.ok rb =>
      match transport 1 with
      | Except.error _ =>
        ⟨Except.error Error.ReqwestError,
         [rb.header "authorization" (lib.toHeaderString answer)]⟩
      | Except.ok second_response =>
        ⟨Except.ok second_response,
         [rb.header "authorization" (lib.toHeaderString answer)]⟩
  | Except.ok none => ⟨Except.ok first_response, []⟩

/-- send_with_digest_auth from src/lib.rs lines 65 to 73: refresh and
transmit; on 401 delegate to try_digest_auth, otherwise return the first
response. -/
def send_with_digest_auth {P A : Type} (lib : DigestAuth P A)
    (transport : Transport) (self : RequestBuilder)
    (username password : String) : SendOutcome :=
  match refresh self with
  | Except.error e => ⟨Except.error e, []⟩
  | Except.ok rb1 =>
    match transport 0 with
    | Except.error _ => ⟨Except.error Error.ReqwestError, [rb1]⟩
    | Except.ok first_response =>
      if first_response.status == 401 then
        match try_digest_auth lib transport self first_response username password with
        | ⟨r, sent⟩ => ⟨r, rb1 :: sent⟩
      else ⟨Except.ok first_response, [rb1]⟩

/-- try_digest_auth from src/blocking.rs lines 26 to 42: the blocking
transcription (identical control flow, synchronous transmit). -/
def blocking_try_digest_auth {P A : Type} (lib : DigestAuth P A)
    (transport : Transport) (request_builder : RequestBuilder)
    (first_response : Response) (username password : String) : SendOutcome :=
  match get_answer lib request_builder first_response.headers username password with
  | Except.error e => ⟨Except.error e, []⟩
  | Except.ok (some answer) =>
    match refresh request_builder with
    | Except.error e => ⟨Except.error e, []⟩
    | Except.ok rb =>
      match transport 1 with
      | Except.error _ =>
        ⟨Except.error Error.ReqwestError,
         [rb.header "authorization" (lib.toHeaderString answer)]⟩
      | Except.ok second_response =>
        ⟨Except.ok second_response,
         [rb.header "authorization" (lib.toHeaderString answer)]⟩
  | Except.ok none => ⟨Except.ok first_response, []⟩

/-- send_with_digest_auth from src/blocking.rs lines 16 to 24: the blocking
transcription. -/
def blocking_send_with_digest_auth {P A : Type} (lib : DigestAuth P A)
    (transport : Transport) (self : RequestBuilder)
    (username password : String) : SendOutcome :=
  match refresh self with
  | Except.error e => ⟨Except.error e, []⟩
  | Except.ok rb1 =>
    match transport 0 with
    | Except.error _ => ⟨Except.error Error.ReqwestError, [rb1]⟩
    | Except.ok first_response =>
      if first_response.status == 401 then
        match blocking_try_digest_auth lib transport self first_response username password with
        | ⟨r, sent⟩ => ⟨r, rb1 :: sent⟩
      else ⟨Except.ok first_response, [rb1]⟩

/-- Modelled from the spec: the parsed WWW-Authenticate Digest challenge
(spec section 3, Challenge: realm, nonce, opaque, quality of protection,
algorithm). The digest_auth library that holds this type is external to the
repository sources. -/
structure Prompt where
  realm : String
  nonce : String
  opq : Option String
  qop : Option String
  algorithm : String
deriving DecidableEq, Repr

/-- Modelled from the spec: the computed Authorization header of the
digest_auth library (spec section 6, wire format produced: username, realm,
nonce, uri, response, qop, nc, cnonce, opaque). -/
structure AuthorizationHeader where
  username : String
  realm : String
  nonce : String
  uri : String
  answerHash : String
  qop : Option String
  nc : Nat
  cnonce : Option String
  opq : Option String
deriving DecidableEq, Repr

/-- Modelled from the spec: to_header_string of the digest_auth library
formats the computed credential per the wire format of spec section 6;
qop, nc and cnonce appear only when a qop was negotiated. -/
def AuthorizationHeader.toWire (a : AuthorizationHeader) : String :=
  "Digest username=\"" ++ a.username ++ "\", realm=\"" ++ a.realm
    ++ "\", nonce=\"" ++ a.nonce ++ "\", uri=\"" ++ a.uri
    ++ "\", response=\"" ++ a.answerHash ++ "\""
    ++ (match a.qop with
        | some q =>
          ", qop=" ++ q ++ ", nc=" ++ (String.mk (Nat.toDigits 10 a.nc))
            ++ ", cnonce=\"" ++ (match a.cnonce with | some c => c | none => "") ++ "\""
        | none => "")
    ++ (match a.opq with | some o => ", opaque=\"" ++ o ++ "\"" | none => "")

/-- Modelled from the spec: the respond computation of the digest_auth
library per RFC 2617 and 7616 rules (spec section 4.2, supporting qop auth
and qop absent; the hash primitive H, MD5 by default, is out of scope and
passed as a parameter, as is the generated client nonce, which the library
draws at random when the context carries none). -/
def respondModel (H : String → String) (cnonce : String) (prompt : Prompt)
    (ctx : AuthContext) : Except DigestErr AuthorizationHeader :=
  match prompt.qop with
  | none =>
    Except.ok ⟨ctx.username, prompt.realm, prompt.nonce, ctx.uri,
      H (H (ctx.username ++ ":" ++ prompt.realm ++ ":" ++ ctx.password)
        ++ ":" ++ prompt.nonce ++ ":" ++ H (ctx.method ++ ":" ++ ctx.uri)),
      none, 0, none, prompt.opq⟩
  | some q =>
    if q = "auth" then
      Except.ok ⟨ctx.username, prompt.realm, prompt.nonce, ctx.uri,
        H (H (ctx.username ++ ":" ++ prompt.realm ++ ":" ++ ctx.password)
          ++ ":" ++ prompt.nonce ++ ":00000001:" ++ cnonce ++ ":" ++ q
          ++ ":" ++ H (ctx.method ++ ":" ++ ctx.uri)),
        some q, 1, some cnonce, prompt.opq⟩
    else Except.error (DigestErr.invalidChallenge "unsupported qop")

/-- The digest_auth library instantiated with the modelled respond
computation, a given challenge parser, hash primitive and generated client
nonce. -/
def mkLib (H : String → String) (cnonce : String)
    (parseFn : String → Except DigestErr Prompt) :
    DigestAuth Prompt AuthorizationHeader :=
  ⟨parseFn, respondModel H cnonce, AuthorizationHeader.toWire⟩

/-! Concrete fixtures used by witnesses and counterexamples. -/

/-- The bytes of an ASCII string. -/
def strBytes (s : String) : List Nat := s.data.map Char.toNat

/-- A trivial digest_auth instantiation where parsing and responding always
succeed with a unit value: exercises only the negotiation control flow. -/
def unitLib : DigestAuth Unit Unit :=
  ⟨fun _ => Except.ok (), fun _ _ => Except.ok (), fun _ => "Digest"⟩

/-- A digest_auth instantiation whose computed credential is exactly the
uri the crate fed into the computation: observes the path argument. -/
def obsLib : DigestAuth Unit String :=
  ⟨fun _ => Except.ok (), fun _ ctx => Except.ok ctx.uri, fun s => s⟩

def urlPlain : Url := ⟨"https", "example.com", none, "/test", none, none⟩

def urlFrag : Url := ⟨"https", "example.com", some 8080, "/a", some "b=c", some "frag"⟩

def rbPlain : RequestBuilder := ⟨"GET", urlPlain, none, []⟩

def rbFrag : RequestBuilder := ⟨"GET", urlFrag, none, []⟩

def rbStream : RequestBuilder := ⟨"POST", urlPlain, some Body.stream, []⟩

def hdrChal : HeaderMap :=
  ⟨[("www-authenticate", strBytes "Digest realm=\"r\", nonce=\"n\"")]⟩

def hdrNone : HeaderMap := ⟨[]⟩

def hdrBad : HeaderMap := ⟨[("www-authenticate", [200])]⟩

def resp200 : Response := ⟨200, hdrNone⟩

def resp401Plain : Response := ⟨401, hdrNone⟩

def resp401Chal : Response := ⟨401, hdrChal⟩

def resp401Bad : Response := ⟨401, hdrBad⟩

def tOk : Transport := fun _ => Except.ok resp200

def t401 : Transport := fun _ => Except.ok resp401Plain

def tBad : Transport := fun _ => Except.ok resp401Bad

def tChal : Transport :=
  fun n => if n == 0 then Except.ok resp401Chal else Except.ok resp200

/-- A concrete stand-in for the hash primitive, injective on its argument
string. -/
def hashEx : String → String := fun s => "[" ++ s ++ "]"

/-- A challenge parser returning a fixed qop auth challenge. -/
def parseAuth : String → Except DigestErr Prompt :=
  fun _ => Except.ok ⟨"r", "n", none, some "auth", "MD5"⟩

/-- A challenge parser returning a fixed challenge without qop. -/
def parseNoQop : String → Except DigestErr Prompt :=
  fun _ => Except.ok ⟨"r", "n", none, none, "MD5"⟩

/-- The credential computed twice for the same request and challenge,
first run of the library generating client nonce c1. -/
def a1Ex : Except Error AuthorizationHeader :=
  parse_digest_auth_header (mkLib hashEx "c1" parseAuth) hdrChal "/t" "GET"
    none "u" "p"

/-- Second run, identical except the library generated client nonce c2. -/
def a2Ex : Except Error AuthorizationHeader :=
  parse_digest_auth_header (mkLib hashEx "c2" parseAuth) hdrChal "/t" "GET"
    none "u" "p"

/-- The credential computed for a challenge without qop (no client nonce
involved). -/
def authNoQop : AuthorizationHeader :=
  ⟨"u", "r", "n", "/t", "[[u:r:p]:n:[GET:/t]]", none, 0, none, none⟩

/-! Helper lemmas. -/

theorem tryClone_of_not_stream (rb : RequestBuilder)
    (h : rb.body ≠ some Body.stream) : rb.tryClone = some rb := by
  unfold RequestBuilder.tryClone
  cases hb : rb.body with
  | none => rfl
  | some b => cases b with
    | stream => exact absurd hb h
    | bytes l => rfl

theorem parse_digest_auth_header_ok_elim {P A : Type} (lib : DigestAuth P A)
    (hdr : HeaderMap) (path method : String) (body : Option (List Nat))
    (username password : String) (a : A)
    (h : parse_digest_auth_header lib hdr path method body username password
          = Except.ok a) :
    ∃ v s prompt, hdr.get "www-authenticate" = some v ∧ hvToStr v = some s ∧
      lib.parse s = Except.ok prompt ∧
      lib.respond prompt ⟨username, password, path, body, method⟩
        = Except.ok a := by
  unfold parse_digest_auth_header at h
  split at h
  · exact absurd h (by simp)
  · split at h
    · exact absurd h (by simp)
    · split at h
      · exact absurd h (by simp)
      · split at h
        · exact absurd h (by simp)
        · cases h
          exact ⟨_, _, _, by assumption, by assumption, by assumption,
            by assumption⟩

theorem tryClone_eq_self (rb r : RequestBuilder) (h : rb.tryClone = some r) :
    r = rb := by
  unfold RequestBuilder.tryClone at h
  split at h
  · exact absurd h (by simp)
  · cases h
    rfl

theorem refresh_ok (rb r : RequestBuilder) (h : refresh rb = Except.ok r) :
    r = rb := by
  unfold refresh clone_request_builder at h
  split at h
  · cases h
    exact tryClone_eq_self rb _ (by assumption)
  · exact absurd h (by simp)

theorem respondModel_ok_elim (H : String → String) (c : String) (p : Prompt)
    (ctx : AuthContext) (a : AuthorizationHeader)
    (h : respondModel H c p ctx = Except.ok a) :
    (p.qop = none ∧ a = ⟨ctx.username, p.realm, p.nonce, ctx.uri,
        H (H (ctx.username ++ ":" ++ p.realm ++ ":" ++ ctx.password)
          ++ ":" ++ p.nonce ++ ":" ++ H (ctx.method ++ ":" ++ ctx.uri)),
        none, 0, none, p.opq⟩)
    ∨ (p.qop = some "auth" ∧ a = ⟨ctx.username, p.realm, p.nonce, ctx.uri,
        H (H (ctx.username ++ ":" ++ p.realm ++ ":" ++ ctx.password)
          ++ ":" ++ p.nonce ++ ":00000001:" ++ c ++ ":" ++ "auth" ++ ":"
          ++ H (ctx.method ++ ":" ++ ctx.uri)),
        some "auth", 1, some c, p.opq⟩) := by
  unfold respondModel at h
  split at h
  · exact Or.inl ⟨by assumption, (Except.ok.inj h).symm⟩
  · split at h
    · refine Or.inr ?_
      rename_i q hq hauth
      subst hauth
      exact ⟨hq, (Except.ok.inj h).symm⟩
    · exact absurd h (by simp)

theorem sent_cases {P A : Type} (lib : DigestAuth P A) (transport : Transport)
    (self : RequestBuilder) (username password : String) :
    (send_with_digest_auth lib transport self username password).sent = []
    ∨ (send_with_digest_auth lib transport self username password).sent
        = [self]
    ∨ ∃ v, (send_with_digest_auth lib transport self username password).sent
        = [self, self.header "authorization" v] := by
  cases hc : self.tryClone with
  | none =>
    left
    simp [send_with_digest_auth, refresh, clone_request_builder, hc]
  | some r =>
    have hc2 : self.tryClone = some self := by
      rw [hc, tryClone_eq_self self r hc]
    have hRf : refresh self = Except.ok self := by
      simp [refresh, clone_request_builder, hc2]
    cases h0 : transport 0 with
    | error e =>
      right; left
      simp [send_with_digest_auth, hRf, h0]
    | ok first_response =>
      by_cases hs : first_response.status = 401
      · cases hg : get_answer lib self first_response.headers username password with
        | error e =>
          right; left
          simp [send_with_digest_auth, hRf, h0, hs, try_digest_auth, hg]
        | ok o =>
          cases o with
          | none =>
            right; left
            simp [send_with_digest_auth, hRf, h0, hs, try_digest_auth, hg]
          | some answer =>
            cases h1 : transport 1 with
            | error e =>
              right; right
              exact ⟨lib.toHeaderString answer, by
                simp [send_with_digest_auth, hRf, h0, hs, try_digest_auth,
                  hg, h1]⟩
            | ok second_response =>
              right; right
              exact ⟨lib.toHeaderString answer, by
                simp [send_with_digest_auth, hRf, h0, hs, try_digest_auth,
                  hg, h1]⟩
      · right; left
        simp [send_with_digest_auth, hRf, h0, hs]

/-! Claim theorems. -/

/-- C1: for every request whose first transmission yields a 401 response
whose headers contain no www-authenticate entry, send_with_digest_auth
returns that first 401 response unchanged (not an error), and exactly one
transmission occurs: the header-missing condition of the resolver is mapped
to the no-challenge signal and swallowed rather than propagated. -/
theorem no_challenge_passthrough {P A : Type} (lib : DigestAuth P A)
    (transport : Transport) (self : RequestBuilder)
    (username password : String) (resp : Response)
    (hclone : self.tryClone = some self)
    (h0 : transport 0 = Except.ok resp)
    (hstatus : resp.status = 401)
    (hmissing : resp.headers.get "www-authenticate" = none) :
    (send_with_digest_auth lib transport self username password).result
        = Except.ok resp ∧
    (send_with_digest_auth lib transport self username password).sent
        = [self] := by
  simp [send_with_digest_auth, refresh, clone_request_builder, hclone, h0,
    hstatus, try_digest_auth, get_answer, calculate_answer,
    RequestBuilder.build, parse_digest_auth_header, hmissing]

theorem no_challenge_passthrough_witness :
    (send_with_digest_auth unitLib t401 rbPlain "u" "p").result
        = Except.ok resp401Plain ∧
    (send_with_digest_auth unitLib t401 rbPlain "u" "p").sent = [rbPlain] :=
  no_challenge_passthrough unitLib t401 rbPlain "u" "p" resp401Plain
    (by decide) rfl rfl (by decide)

/-- C3: for every request whose first transmission yields a status other
than 401, send_with_digest_auth returns that first response verbatim and
exactly one transmission occurs. -/
theorem non_401_returned_verbatim {P A : Type} (lib : DigestAuth P A)
    (transport : Transport) (self : RequestBuilder)
    (username password : String) (resp : Response)
    (hclone : self.tryClone = some self)
    (h0 : transport 0 = Except.ok resp)
    (hstatus : resp.status ≠ 401) :
    (send_with_digest_auth lib transport self username password).result
        = Except.ok resp ∧
    (send_with_digest_auth lib transport self username password).sent
        = [self] := by
  simp [send_with_digest_auth, refresh, clone_request_builder, hclone, h0,
    hstatus]

theorem non_401_returned_verbatim_witness :
    (send_with_digest_auth unitLib tOk rbPlain "u" "p").result
        = Except.ok resp200 ∧
    (send_with_digest_auth unitLib tOk rbPlain "u" "p").sent = [rbPlain] :=
  non_401_returned_verbatim unitLib tOk rbPlain "u" "p" resp200
    (by decide) rfl (by decide)

/-- C6: for every invocation of send_with_digest_auth and every sequence of
transport responses, at most two transmissions occur: there is no loop and
no multi-round challenge chain. -/
theorem at_most_two_transmissions {P A : Type} (lib : DigestAuth P A)
    (transport : Transport) (self : RequestBuilder)
    (username password : String) :
    (send_with_digest_auth lib transport self username password).sent.length
      ≤ 2 := by
  rcases sent_cases lib transport self username password with h | h | ⟨v, h⟩ <;>
    simp [h]

/-- C7: for every request whose body cannot be duplicated (try_clone
returns no value), send_with_digest_auth fails with the not-duplicable
error, produced before any transmission occurs. -/
theorem not_duplicable_fails_before_send {P A : Type} (lib : DigestAuth P A)
    (transport : Transport) (self : RequestBuilder)
    (username password : String)
    (hclone : self.tryClone = none) :
    (send_with_digest_auth lib transport self username password).result
        = Except.error Error.RequestBuilderNotCloneable ∧
    (send_with_digest_auth lib transport self username password).sent
        = [] := by
  simp [send_with_digest_auth, refresh, clone_request_builder, hclone]

theorem not_duplicable_fails_before_send_witness :
    (send_with_digest_auth unitLib tOk rbStream "u" "p").result
        = Except.error Error.RequestBuilderNotCloneable ∧
    (send_with_digest_auth unitLib tOk rbStream "u" "p").sent = [] :=
  not_duplicable_fails_before_send unitLib tOk rbStream "u" "p" (by decide)

/-- C8: the blocking and the async entry points implement the same
negotiation function: for every request, credentials and identical sequence
of transport responses they return the same outcome and transmit the same
requests (hence the same retry decision and the same attached Authorization
value). -/
theorem blocking_equals_async {P A : Type} (lib : DigestAuth P A)
    (transport : Transport) (self : RequestBuilder)
    (username password : String) :
    blocking_send_with_digest_auth lib transport self username password
      = send_with_digest_auth lib transport self username password := rfl

/-- C10: send_with_digest_auth never mutates the original request: on every
path the transmitted requests are the unmodified original duplicate and, at
most, one duplicate extended with exactly the Authorization header; the
original builder value itself is never extended. -/
theorem original_request_not_mutated {P A : Type} (lib : DigestAuth P A)
    (transport : Transport) (self : RequestBuilder)
    (username password : String) :
    (send_with_digest_auth lib transport self username password).sent = []
    ∨ (send_with_digest_auth lib transport self username password).sent
        = [self]
    ∨ ∃ v, (send_with_digest_auth lib transport self username password).sent
        = [self, self.header "authorization" v] :=
  sent_cases lib transport self username password

/-- C4: for every request whose first response is a 401 carrying a
www-authenticate header, if the header value is not decodable as text, or
decodes but does not parse as a well-formed Digest challenge, then
send_with_digest_auth returns an error and no second transmission occurs:
every resolver failure other than the header-missing condition propagates. -/
theorem bad_challenge_aborts {P A : Type} (lib : DigestAuth P A)
    (transport : Transport) (self : RequestBuilder)
    (username password : String) (resp : Response) (v : HeaderValue)
    (hclone : self.tryClone = some self)
    (h0 : transport 0 = Except.ok resp)
    (hstatus : resp.status = 401)
    (hpresent : resp.headers.get "www-authenticate" = some v)
    (hbad : hvToStr v = none ∨
      ∃ s e, hvToStr v = some s ∧ lib.parse s = Except.error e) :
    (∃ err,
      (send_with_digest_auth lib transport self username password).result
        = Except.error err) ∧
    (send_with_digest_auth lib transport self username password).sent
        = [self] := by
  rcases hbad with hb | ⟨s, e, hs, hp⟩
  · refine ⟨⟨Error.ToStrError, ?_⟩, ?_⟩ <;>
      simp [send_with_digest_auth, refresh, clone_request_builder, hclone,
        h0, hstatus, try_digest_auth, get_answer, calculate_answer,
        RequestBuilder.build, parse_digest_auth_header, hpresent, hb]
  · refine ⟨⟨Error.DigestAuthError e, ?_⟩, ?_⟩ <;>
      simp [send_with_digest_auth, refresh, clone_request_builder, hclone,
        h0, hstatus, try_digest_auth, get_answer, calculate_answer,
        RequestBuilder.build, parse_digest_auth_header, hpresent, hs, hp]

theorem bad_challenge_aborts_witness :
    (∃ err, (send_with_digest_auth unitLib tBad rbPlain "u" "p").result
        = Except.error err) ∧
    (send_with_digest_auth unitLib tBad rbPlain "u" "p").sent = [rbPlain] :=
  bad_challenge_aborts unitLib tBad rbPlain "u" "p" resp401Bad [200]
    (by decide) rfl rfl (by decide) (Or.inl (by decide))

/-- C5: for every request whose first response is a 401 with a resolvable
Digest challenge, the computed credential is attached as an Authorization
header to a fresh duplicate, that duplicate is transmitted, and the second
response is returned as the final result regardless of its status, even if
it is itself a 401. -/
theorem challenge_retry_returns_second {P A : Type} (lib : DigestAuth P A)
    (transport : Transport) (self : RequestBuilder)
    (username password : String) (resp resp2 : Response) (answer : A)
    (hclone : self.tryClone = some self)
    (h0 : transport 0 = Except.ok resp)
    (hstatus : resp.status = 401)
    (hans : get_answer lib self resp.headers username password
        = Except.ok (some answer))
    (h1 : transport 1 = Except.ok resp2) :
    (send_with_digest_auth lib transport self username password).result
        = Except.ok resp2 ∧
    (send_with_digest_auth lib transport self username password).sent
        = [self, self.header "authorization" (lib.toHeaderString answer)] := by
  simp [send_with_digest_auth, refresh, clone_request_builder, hclone, h0,
    hstatus, try_digest_auth, hans, h1]

theorem challenge_retry_returns_second_witness :
    (send_with_digest_auth unitLib tChal rbPlain "u" "p").result
        = Except.ok resp200 ∧
    (send_with_digest_auth unitLib tChal rbPlain "u" "p").sent
        = [rbPlain,
           rbPlain.header "authorization" (unitLib.toHeaderString ())] :=
  challenge_retry_returns_second unitLib tChal rbPlain "u" "p" resp401Chal
    resp200 () (by decide) rfl rfl (by decide) rfl

/-- C2 (amended): for every duplicable request whose URL carries no
fragment, the uri value fed into the digest computation is exactly the
request path-and-query, scheme, host and port stripped; in general the
source feeds everything after the port, which also includes the fragment
when the URL carries one. -/
theorem uri_fed_is_path_and_query {P A : Type} (lib : DigestAuth P A)
    (rb : RequestBuilder) (headers : HeaderMap) (username password : String)
    (hclone : rb.tryClone = some rb)
    (hfrag : rb.url.fragment = none) :
    calculate_answer lib rb headers username password
      = parse_digest_auth_header lib headers rb.url.pathAndQuery rb.method
          (rb.body.bind Body.as_bytes) username password := by
  simp [calculate_answer, clone_request_builder, hclone,
    RequestBuilder.build, Url.afterPort, Url.pathAndQuery, hfrag,
    String.append_empty]

theorem uri_fed_is_path_and_query_witness :
    calculate_answer obsLib rbPlain hdrChal "u" "p"
      = parse_digest_auth_header obsLib hdrChal rbPlain.url.pathAndQuery
          rbPlain.method (rbPlain.body.bind Body.as_bytes) "u" "p" :=
  uri_fed_is_path_and_query obsLib rbPlain hdrChal "u" "p" (by decide)
    (by decide)

/-- C2 counterexample: for a request URL that carries a fragment, the uri
fed into the digest computation (observed through a library instantiation
whose computed credential is exactly the uri it received) is the path,
query and fragment together, not the path-and-query of the request. -/
theorem uri_fed_includes_fragment :
    calculate_answer obsLib rbFrag hdrChal "u" "p" = Except.ok "/a?b=c#frag"
    ∧ rbFrag.url.pathAndQuery = "/a?b=c"
    ∧ ("/a?b=c#frag" : String) ≠ "/a?b=c" :=
  ⟨by decide, by decide, by decide⟩

/-- C9 (amended): computing the Authorization value twice for the same
request (same method, path, body, credentials) against the same challenge
(same nonce) is deterministic up to the generated client nonce: with the
same client nonce the two results are identical; when the challenge
negotiates no qop, so that no client nonce enters the computation, the two
results are identical; and in general the two computed headers agree on
every field except the client nonce and the response hash, which
incorporates the client nonce. -/
theorem same_challenge_idempotent (H : String → String)
    (parseFn : String → Except DigestErr Prompt) (c1 c2 : String)
    (hdr : HeaderMap) (path method : String) (body : Option (List Nat))
    (username password : String) (a1 a2 : AuthorizationHeader)
    (h1 : parse_digest_auth_header (mkLib H c1 parseFn) hdr path method body
        username password = Except.ok a1)
    (h2 : parse_digest_auth_header (mkLib H c2 parseFn) hdr path method body
        username password = Except.ok a2) :
    (a1.username = a2.username ∧ a1.realm = a2.realm ∧ a1.nonce = a2.nonce ∧
     a1.uri = a2.uri ∧ a1.qop = a2.qop ∧ a1.nc = a2.nc ∧ a1.opq = a2.opq) ∧
    (c1 = c2 → a1 = a2) ∧ (a1.qop = none → a1 = a2) := by
  obtain ⟨v1, s1, p1, hg1, ht1, hp1, hr1⟩ :=
    parse_digest_auth_header_ok_elim _ _ _ _ _ _ _ _ h1
  obtain ⟨v2, s2, p2, hg2, ht2, hp2, hr2⟩ :=
    parse_digest_auth_header_ok_elim _ _ _ _ _ _ _ _ h2
  rw [hg1] at hg2
  obtain rfl := Option.some.inj hg2
  rw [ht1] at ht2
  obtain rfl := Option.some.inj ht2
  simp only [mkLib] at hp1 hp2 hr1 hr2
  rw [hp1] at hp2
  obtain rfl := Except.ok.inj hp2
  rcases respondModel_ok_elim H c1 p1 _ a1 hr1 with ⟨hq1, ha1⟩ | ⟨hq1, ha1⟩ <;>
    rcases respondModel_ok_elim H c2 p1 _ a2 hr2 with ⟨hq2, ha2⟩ | ⟨hq2, ha2⟩
  · subst ha1
    subst ha2
    exact ⟨⟨rfl, rfl, rfl, rfl, rfl, rfl, rfl⟩, fun _ => rfl, fun _ => rfl⟩
  · rw [hq1] at hq2
    simp at hq2
  · rw [hq1] at hq2
    simp at hq2
  · subst ha1
    subst ha2
    refine ⟨⟨rfl, rfl, rfl, rfl, rfl, rfl, rfl⟩, fun h => by rw [h],
      fun h => by simp at h⟩

theorem same_challenge_idempotent_witness :
    (authNoQop.username = authNoQop.username ∧
     authNoQop.realm = authNoQop.realm ∧
     authNoQop.nonce = authNoQop.nonce ∧
     authNoQop.uri = authNoQop.uri ∧
     authNoQop.qop = authNoQop.qop ∧
     authNoQop.nc = authNoQop.nc ∧
     authNoQop.opq = authNoQop.opq) ∧
    (("c1" : String) = "c2" → authNoQop = authNoQop) ∧
    (authNoQop.qop = none → authNoQop = authNoQop) :=
  same_challenge_idempotent hashEx parseNoQop "c1" "c2" hdrChal "/t" "GET"
    none "u" "p" authNoQop authNoQop (by decide) (by decide)

/-- C9 counterexample: two computations of the credential for the same
request and the same qop auth challenge, differing only in the generated
client nonce, both succeed and differ in the response hash field, a field
other than the client nonce: the two Authorization headers are not
byte-identical up to the client nonce field alone. -/
theorem fresh_cnonce_changes_response_hash :
    a1Ex.toOption.map AuthorizationHeader.answerHash
      ≠ a2Ex.toOption.map AuthorizationHeader.answerHash ∧
    (a1Ex.toOption.map AuthorizationHeader.answerHash).isSome = true ∧
    (a2Ex.toOption.map AuthorizationHeader.answerHash).isSome = true :=
  ⟨by decide, by decide, by decide⟩

end Diqwest
